import Mathlib

/-!
Shallow embedding of the chapter-detection core of `pdf_processor.py`
(class `PDFChapterSplitter`) together with theorems checking the
natural-language specification against it.

Conventions of the embedding:
* Python dicts describing chapters become the `Chapter` structure; the
  `end_page` key, which is absent until `_calculate_end_pages` runs, is an
  `Option Int` (`none` = key absent).  `font_size`, present only on
  heading-detected chapters, is an `Option ℚ`.
* Page indices and counters are `Nat`; computed end pages are `Int`
  because Python evaluates `start_page - 1` and `total_pages - 1` over ℤ.
* Font sizes are `ℚ` (exact stand-in for Python floats in comparisons).
* A bookmark outline node is `BNode`: title, optionally resolvable
  destination page (`none` models `_get_bookmark_page` returning `None`
  after swallowing any per-node exception), and a children list.
* Text is ASCII-modelled: `Char.toLower`/`Char.isUpper` coincide with
  Python `str.lower`/`str.isupper` on ASCII, which is the intended domain
  of the regex patterns in `_is_chapter_heading`.
-/

namespace PdfSplitter

/-- One chapter-candidate record, mirroring the dicts built in
`_extract_nested_bookmarks`, `_detect_from_headings` and
`_create_default_chapters`. -/
structure Chapter where
  title : String
  full_title : String
  parent : String
  start_page : Nat
  chapter_num : Nat
  level : Nat
  font_size : Option ℚ := none
  end_page : Option Int := none
  deriving DecidableEq, Repr

/-- `_calculate_end_pages` (pdf_processor.py lines 294-302): every chapter
except the last gets `end_page = next start_page - 1`; the last gets
`total_pages - 1`.  The Python loop mutates in place; rendered as a
recursion producing the updated list. -/
def calculate_end_pages : List Chapter → Nat → List Chapter
  | [], _ => []
  | [c], total_pages => [{ c with end_page := some ((total_pages : Int) - 1) }]
  | c :: c2 :: rest, total_pages =>
      { c with end_page := some ((c2.start_page : Int) - 1) }
        :: calculate_end_pages (c2 :: rest) total_pages

/-- Title joining used for `full_title` / nested `parent_title`:
`f"{parent_title} → {title}" if parent_title else title`. -/
def join_title (parent_title title : String) : String :=
  if parent_title = "" then title else parent_title ++ " → " ++ title

/-- A node of the PDF outline (bookmark) tree. -/
inductive BNode where
  | mk (title : String) (dest : Option Nat) (children : List BNode)

/-- `_extract_nested_bookmarks` (pdf_processor.py lines 85-153): pre-order
traversal; a node with children is a container (recurse with extended
parent title, advance the counter by the number of chapters returned); a
childless node is a leaf and yields a chapter iff its destination page
resolved (`dest = some page_num`); an unresolved leaf is skipped without
consuming a chapter number. -/
def extract_nested_bookmarks : List BNode → Nat → String → Nat → List Chapter
  | [], _, _, _ => []
  | BNode.mk title dest children :: rest, chapter_num, parent_title, level =>
      if 0 < children.length then
        let nested := extract_nested_bookmarks children chapter_num
          (join_title parent_title title) (level + 1)
        nested ++ extract_nested_bookmarks rest (chapter_num + nested.length)
          parent_title level
      else
        match dest with
        | some page_num =>
            { title := title
              full_title := join_title parent_title title
              parent := parent_title
              start_page := page_num
              chapter_num := chapter_num
              level := level }
              :: extract_nested_bookmarks rest (chapter_num + 1) parent_title level
        | none => extract_nested_bookmarks rest chapter_num parent_title level
termination_by items _ _ _ => sizeOf items
decreasing_by all_goals (simp_wf; try omega)

/-- `_detect_from_bookmarks` happy path (pdf_processor.py lines 47-79):
flatten the outline starting at chapter number 1, empty parent title,
level 0, then resolve end pages against the page count. -/
def detect_from_bookmarks (outline : List BNode) (total_pages : Nat) : List Chapter :=
  calculate_end_pages (extract_nested_bookmarks outline 1 "" 0) total_pages

/-- `_create_default_chapters` (pdf_processor.py lines 304-326): fixed
chunks of 20 pages; `range(0, total_pages, 20)` has `(total_pages+19)/20`
elements, the k-th iteration sees `i = 20*k` and `len(chapters) = k`. -/
def create_default_chapters (total_pages : Nat) : List Chapter :=
  (List.range ((total_pages + 19) / 20)).map (fun k =>
    { title := "Section " ++ toString (k + 1)
      full_title := "Section " ++ toString (k + 1)
      parent := ""
      start_page := 20 * k
      end_page := some (min ((20 * k + 19 : Nat) : Int) ((total_pages : Int) - 1))
      chapter_num := k + 1
      level := 0 })

/-- One text span with its rendered font size, the `(span["text"], span["size"])`
pair the heading scanner reads. -/
structure Span where
  text : String
  size : ℚ
  deriving DecidableEq, Repr

/-- A line is a list of spans (`line["spans"]`). -/
abbrev Line := List Span

/-- A block is a list of lines (`block["lines"]`; a block lacking the
`"lines"` key behaves exactly like one with an empty list: both contribute
no spans). -/
abbrev Block := List Line

/-- A page is its list of text blocks (`page.get_text("dict")["blocks"]`). -/
abbrev Page := List Block

/-- All spans of a page in block/line order, the order in which the nested
`for block / for line / for span` loops visit them. -/
def page_spans (p : Page) : List Span :=
  (p.map List.flatten).flatten

/-- `_analyze_font_sizes` (pdf_processor.py lines 239-253): the font size
of every span on the first `min(20, len(doc))` pages, in visit order. -/
def analyze_font_sizes (doc : List Page) : List ℚ :=
  ((doc.take 20).map (fun p => (page_spans p).map Span.size)).flatten

/-- `_calculate_heading_threshold` (pdf_processor.py lines 255-263).
`sorted(font_sizes, reverse=True)` is the descending insertion sort (the
value sequence of a sorted permutation is unique, so any correct sort
models Python `sorted`); `int(len(sorted_sizes) * 0.1)` equals
`len / 10` for every list length below 2^53 — the IEEE-754 product
`N * 0.1` rounds to a value whose truncation is `⌊N/10⌋` — so it is
embedded as `Nat` floor division. -/
def calculate_heading_threshold (font_sizes : List ℚ) : ℚ :=
  if font_sizes = [] then 14
  else
    let sorted_sizes := List.insertionSort (· ≥ ·) font_sizes
    let percentile_90_idx := sorted_sizes.length / 10
    if h : percentile_90_idx < sorted_sizes.length then
      sorted_sizes.get ⟨percentile_90_idx, h⟩
    else 14

/-- Whitespace class of the regex escape `\s` over ASCII. -/
def regex_ws (c : Char) : Bool :=
  c = ' ' || c = '\t' || c = '\n' || c = '\x0d' || c = '\x0b' || c = '\x0c'

/-- Matcher for a literal prefix: consume `pre` off the front of `cs` or
fail. -/
def drop_lit : List Char → List Char → Option (List Char)
  | [], cs => some cs
  | _ :: _, [] => none
  | p :: ps, c :: cs => if c = p then drop_lit ps cs else none

/-- Matcher for `X+` of a character class `f` (greedy, at least one);
sound here because every following regex atom is disjoint from the class
it repeats, so greedy matching never needs to backtrack. -/
def drop_class1 (f : Char → Bool) : List Char → Option (List Char)
  | [] => none
  | c :: cs => if f c then some (cs.dropWhile f) else none

/-- Head of the remainder is in class `f` (a single-character atom such as
`[A-Z]`). -/
def head_in_class (f : Char → Bool) : List Char → Bool
  | [] => false
  | c :: _ => f c

/-- The regex `^chapter\s+\d+` applied at the start of the text. -/
def pat_chapter (cs : List Char) : Bool :=
  (((drop_lit "chapter".toList cs).bind (drop_class1 regex_ws)).bind
    (drop_class1 Char.isDigit)).isSome

/-- The regex `^\d+\.\s+[A-Z]` applied at the start of the text. -/
def pat_numbered (cs : List Char) : Bool :=
  match ((drop_class1 Char.isDigit cs).bind (drop_lit ['.'])).bind
      (drop_class1 regex_ws) with
  | some rest => head_in_class Char.isUpper rest
  | none => false

/-- The regex `^[A-Z][A-Z\s]{5,}$`: an upper-case letter followed by at
least five characters drawn from upper-case letters and whitespace,
reaching the end of the text. -/
def pat_allcaps (cs : List Char) : Bool :=
  match cs with
  | [] => false
  | c :: rest =>
      c.isUpper && decide (5 ≤ rest.length)
        && rest.all (fun d => d.isUpper || regex_ws d)

/-- The regex `^Part\s+[IVX\d]+` applied at the start of the text. -/
def pat_part (cs : List Char) : Bool :=
  (((drop_lit "Part".toList cs).bind (drop_class1 regex_ws)).bind
    (drop_class1 (fun c => c = 'I' || c = 'V' || c = 'X' || c.isDigit))).isSome

/-- The regex `^Section\s+\d+` applied at the start of the text. -/
def pat_section (cs : List Char) : Bool :=
  (((drop_lit "Section".toList cs).bind (drop_class1 regex_ws)).bind
    (drop_class1 Char.isDigit)).isSome

/-- The `text[0].isupper()` test of the catch-all heuristic; only reached
when `len(text) > 3`, so the empty-text value never matters. -/
def first_char_upper (text : String) : Bool :=
  match text.toList with
  | [] => false
  | c :: _ => c.isUpper

/-- `_is_chapter_heading` (pdf_processor.py lines 265-292): the five
regex patterns are searched in `text.lower()` (all anchored at the start,
so `re.search` means match-at-position-0), then the catch-all heuristic
`3 < len(text) < 100 and text[0].isupper()` runs on the original text. -/
def is_chapter_heading (text : String) : Bool :=
  let text_lower := text.toList.map Char.toLower
  pat_chapter text_lower || pat_numbered text_lower || pat_allcaps text_lower
    || pat_part text_lower || pat_section text_lower
    || (decide (text.length < 100) && decide (3 < text.length)
          && first_char_upper text)

/-- The qualifying spans of the full-document scan in
`_detect_from_headings` (pdf_processor.py lines 199-227): page by page in
order, each span whose stripped text passes `_is_chapter_heading` and
whose size reaches the threshold contributes `(page index, stripped text,
size)`. -/
def qualifying_spans (doc : List Page) (heading_threshold : ℚ) :
    List (Nat × String × ℚ) :=
  doc.enum.flatMap (fun pi =>
    (page_spans pi.2).filterMap (fun span =>
      if heading_threshold ≤ span.size ∧ is_chapter_heading span.text.trim then
        some (pi.1, span.text.trim, span.size)
      else none))

/-- The chapter list built by the scan loop of `_detect_from_headings`:
the k-th qualifying span (0-based) becomes a chapter numbered `k + 1`. -/
def detect_from_headings_scan (doc : List Page) : List Chapter :=
  let heading_threshold := calculate_heading_threshold (analyze_font_sizes doc)
  (qualifying_spans doc heading_threshold).enum.map (fun x =>
    { title := x.2.2.1
      full_title := x.2.2.1
      parent := ""
      start_page := x.2.1
      chapter_num := x.1 + 1
      font_size := some x.2.2.2
      level := 0 })

/-- `_detect_from_headings` without its exception fallback (pdf_processor.py
lines 181-233): scan, then resolve end pages against the page count. -/
def detect_from_headings (doc : List Page) : List Chapter :=
  calculate_end_pages (detect_from_headings_scan doc) doc.length

/-- `_create_default_chapters` as actually written does not receive
`total_pages` as a parameter: it re-opens the PDF itself —
`pikepdf.Pdf.open(self.pdf_path)` / `len(pdf.pages)` (pdf_processor.py
lines 306-308) — before the chunk loop.  That open is a fallible external
read with no try/except around it, modelled as an `Except` parameter: a
failed open propagates out of the function, and a successful read leaves
only the chunk arithmetic of `create_default_chapters`. -/
def create_default_chapters_outcome (page_count_read : Except Unit Nat) :
    Except Unit (List Chapter) :=
  match page_count_read with
  | Except.error e => Except.error e
  | Except.ok total_pages => Except.ok (create_default_chapters total_pages)

/-- `detect_chapters` (pdf_processor.py lines 26-45) combined with the
try/except of `_detect_from_headings` (lines 235-237): a non-empty
bookmark result wins with method `"bookmarks"`; otherwise the heading
detector runs — if its scan completes its list is the answer, and if it
raises, `_create_default_chapters` is returned in its place — and in both
cases `detection_method` is then set to `"headings"`.  The outcomes of the
two sub-detections are parameters, standing for the external PDF reads. -/
def detect_chapters (bookmark_chapters : List Chapter)
    (heading_outcome : Except Unit (List Chapter)) (total_pages : Nat) :
    List Chapter × String :=
  if bookmark_chapters.isEmpty then
    match heading_outcome with
    | Except.ok chapters => (chapters, "headings")
    | Except.error _ => (create_default_chapters total_pages, "headings")
  else
    (bookmark_chapters, "bookmarks")

/-- Spec-side definition, following the specification's words: the
destinations of the resolvable leaf nodes of an outline in pre-order
traversal order — the order in which the spec says candidates are
produced ("ordered by ascending start_page as produced").  It is compared
against the output order of `extract_nested_bookmarks`. -/
def preorder_leaf_pages : List BNode → List Nat
  | [] => []
  | BNode.mk _ dest children :: rest =>
      if 0 < children.length then
        preorder_leaf_pages children ++ preorder_leaf_pages rest
      else
        match dest with
        | some page_num => page_num :: preorder_leaf_pages rest
        | none => preorder_leaf_pages rest
termination_by items => sizeOf items
decreasing_by all_goals (simp_wf; try omega)

/-- Concrete chapter used in witness instantiations (start page 0). -/
def wchA : Chapter :=
  { title := "A", full_title := "A", parent := "", start_page := 0
    chapter_num := 1, level := 0 }

/-- Concrete chapter used in witness instantiations (start page 5). -/
def wchB : Chapter :=
  { title := "B", full_title := "B", parent := "", start_page := 5
    chapter_num := 2, level := 0 }

/-- An outline whose two leaves point at pages 5 and 0 — resolvable, but
out of document order. -/
def out_of_order_outline : List BNode :=
  [BNode.mk "A" (some 5) [], BNode.mk "B" (some 0) []]

/-- An outline whose two leaves point at pages 0 and 5, in document
order. -/
def in_order_outline : List BNode :=
  [BNode.mk "A" (some 0) [], BNode.mk "B" (some 5) []]

/-- A one-page document with three spans of sizes 12, 20 and 16. -/
def sample_doc : List Page :=
  [[[[{ text := "x", size := 12 }, { text := "y", size := 20 },
      { text := "z", size := 16 }]]]]

/-- One hundred copies of the letter A. -/
def hundred_as : String :=
  String.mk (List.replicate 100 'A')

/-- Resolving end pages never changes the number of candidates. -/
theorem calculate_end_pages_length (cs : List Chapter) (t : Nat) :
    (calculate_end_pages cs t).length = cs.length := by
  induction cs with
  | nil => rfl
  | cons c cs ih =>
    cases cs with
    | nil => rfl
    | cons c2 rest => simpa [calculate_end_pages] using ih

/-- Resolving end pages of a non-empty list yields a non-empty list. -/
theorem calculate_end_pages_ne_nil (cs : List Chapter) (t : Nat) (hne : cs ≠ []) :
    calculate_end_pages cs t ≠ [] := by
  intro h
  have := calculate_end_pages_length cs t
  rw [h] at this
  exact hne (List.eq_nil_of_length_eq_zero this.symm)

/-- Elementwise description of `calculate_end_pages`: position `i` keeps
all its fields except that `end_page` becomes the next start page minus
one, or `total_pages - 1` at the last position. -/
theorem calculate_end_pages_get (cs : List Chapter) (t : Nat) (i : Nat)
    (hi : i < cs.length) :
    (calculate_end_pages cs t).get
        ⟨i, by rw [calculate_end_pages_length]; exact hi⟩ =
      { cs.get ⟨i, hi⟩ with
        end_page := some (if h : i + 1 < cs.length then
            ((cs.get ⟨i + 1, h⟩).start_page : Int) - 1
          else (t : Int) - 1) } := by
  induction cs generalizing i with
  | nil => exact absurd hi (by simp)
  | cons c cs ih =>
    cases cs with
    | nil =>
      obtain rfl : i = 0 := by simpa using hi
      simp [calculate_end_pages]
    | cons c2 rest =>
      cases i with
      | zero => simp [calculate_end_pages]
      | succ j =>
        have hj : j < (c2 :: rest).length := by
          simpa using Nat.lt_of_succ_lt_succ hi
        have := ih j hj
        simpa [calculate_end_pages, Nat.succ_lt_succ_iff] using this

/-- Resolving end pages leaves every field other than `end_page` alone:
any projection insensitive to `end_page` maps to the same list. -/
theorem calculate_end_pages_map {α : Type} (f : Chapter → α)
    (hf : ∀ c e, f { c with end_page := e } = f c) (cs : List Chapter) (t : Nat) :
    (calculate_end_pages cs t).map f = cs.map f := by
  induction cs with
  | nil => rfl
  | cons c cs ih =>
    cases cs with
    | nil => simp [calculate_end_pages, hf]
    | cons c2 rest =>
      simpa [calculate_end_pages, hf] using ih

/-- C10: BoundaryResolver is total at the empty-list edge case: for every
page count, `_calculate_end_pages` maps the empty candidate list to the
empty list, with no error possible. -/
theorem boundary_resolver_empty (total_pages : Nat) :
    calculate_end_pages [] total_pages = [] := rfl

/-- C1: on a non-empty candidate list, `_calculate_end_pages` gives every
chapter but the last `end_page = start_page[i+1] - 1`, gives the last
`end_page = totalPages - 1`, and applies no other change or validation
(every other field of every candidate is preserved). -/
theorem boundary_resolver_end_pages (chapters : List Chapter) (total_pages : Nat)
    (hne : chapters ≠ []) :
    (∀ i (hi : i + 1 < chapters.length),
      ((calculate_end_pages chapters total_pages).get
          ⟨i, by rw [calculate_end_pages_length]; omega⟩).end_page
        = some (((chapters.get ⟨i + 1, hi⟩).start_page : Int) - 1)) ∧
    ((calculate_end_pages chapters total_pages).getLast
        (calculate_end_pages_ne_nil chapters total_pages hne)).end_page
      = some ((total_pages : Int) - 1) ∧
    (∀ i (hi : i < chapters.length),
      ((calculate_end_pages chapters total_pages).get
            ⟨i, by rw [calculate_end_pages_length]; exact hi⟩).title
          = (chapters.get ⟨i, hi⟩).title ∧
        ((calculate_end_pages chapters total_pages).get
            ⟨i, by rw [calculate_end_pages_length]; exact hi⟩).full_title
          = (chapters.get ⟨i, hi⟩).full_title ∧
        ((calculate_end_pages chapters total_pages).get
            ⟨i, by rw [calculate_end_pages_length]; exact hi⟩).parent
          = (chapters.get ⟨i, hi⟩).parent ∧
        ((calculate_end_pages chapters total_pages).get
            ⟨i, by rw [calculate_end_pages_length]; exact hi⟩).start_page
          = (chapters.get ⟨i, hi⟩).start_page ∧
        ((calculate_end_pages chapters total_pages).get
            ⟨i, by rw [calculate_end_pages_length]; exact hi⟩).chapter_num
          = (chapters.get ⟨i, hi⟩).chapter_num ∧
        ((calculate_end_pages chapters total_pages).get
            ⟨i, by rw [calculate_end_pages_length]; exact hi⟩).level
          = (chapters.get ⟨i, hi⟩).level ∧
        ((calculate_end_pages chapters total_pages).get
            ⟨i, by rw [calculate_end_pages_length]; exact hi⟩).font_size
          = (chapters.get ⟨i, hi⟩).font_size) := by
  refine ⟨fun i hi => ?_, ?_, fun i hi => ?_⟩
  · rw [calculate_end_pages_get chapters total_pages i (by omega)]
    simp [hi]
  · have hlen : 0 < chapters.length := List.length_pos.mpr hne
    rw [List.getLast_eq_get, calculate_end_pages_get chapters total_pages
      ((calculate_end_pages chapters total_pages).length - 1)
      (by rw [calculate_end_pages_length]; omega)]
    have hnot : ¬ ((calculate_end_pages chapters total_pages).length - 1) + 1
        < chapters.length := by
      rw [calculate_end_pages_length]; omega
    simp [hnot]
  · rw [calculate_end_pages_get chapters total_pages i hi]
    simp

/-- Witness for C1 at the concrete list `[wchA, wchB]` with 10 pages. -/
theorem boundary_resolver_end_pages_witness :
    ([wchA, wchB] : List Chapter) ≠ [] ∧
    ((calculate_end_pages [wchA, wchB] 10).getLast
        (calculate_end_pages_ne_nil [wchA, wchB] 10 (by decide))).end_page
      = some 9 :=
  ⟨by decide,
    ((boundary_resolver_end_pages [wchA, wchB] 10 (by decide)).2.1).trans (by decide)⟩

/-- C3 counterexample: `_create_default_chapters` is not "pure arithmetic
over totalPages that cannot itself raise or fail": its first statements
re-open the PDF (pdf_processor.py lines 306-308), and when that open
raises — e.g. on the very corrupt document that made the heading scan
raise and reach the default path — the function itself fails and returns
no chapter list. -/
theorem default_chapterizer_open_failure :
    create_default_chapters_outcome (Except.error ()) = Except.error () ∧
    ∀ cs : List Chapter,
      create_default_chapters_outcome (Except.error ()) ≠ Except.ok cs :=
  ⟨rfl, fun _ h => by cases h⟩

/-- C3 amended: `_create_default_chapters` first re-opens the PDF to read
its page count, and a failure of that open propagates (no try/except);
whenever the page-count read succeeds the remainder is pure arithmetic
over `totalPages` that cannot fail: zero pages give the empty partition,
and any positive page count gives a partition that starts at page 0, has
abutting chunks, and ends at the last page. -/
theorem default_chapterizer_amended (total_pages : Nat) :
    (create_default_chapters_outcome (Except.ok total_pages)
      = Except.ok (create_default_chapters total_pages)) ∧
    (total_pages = 0 → create_default_chapters total_pages = []) ∧
    (0 < total_pages →
      (create_default_chapters total_pages) ≠ [] ∧
      ((create_default_chapters total_pages).map Chapter.start_page).head?
        = some 0 ∧
      ((create_default_chapters total_pages).map Chapter.end_page).getLast?
        = some (some ((total_pages : Int) - 1)) ∧
      (∀ i c c2, (create_default_chapters total_pages)[i]? = some c →
        (create_default_chapters total_pages)[i + 1]? = some c2 →
        (c2.start_page : Int) = c.end_page.getD 0 + 1)) := by
  refine ⟨rfl, ?_, ?_⟩
  · intro h
    subst h
    rfl
  · intro hpos
    have hK : 0 < (total_pages + 19) / 20 := by omega
    have hKle : total_pages ≤ 20 * ((total_pages + 19) / 20) := by omega
    have hKlt : 20 * ((total_pages + 19) / 20 - 1) < total_pages := by omega
    refine ⟨?_, ?_, ?_, ?_⟩
    · intro h
      have hlen := congrArg List.length h
      simp only [create_default_chapters, List.length_map, List.length_range,
        List.length_nil] at hlen
      omega
    · obtain ⟨K, hKeq⟩ : ∃ K, (total_pages + 19) / 20 = K + 1 :=
        ⟨(total_pages + 19) / 20 - 1, by omega⟩
      simp [create_default_chapters, hKeq, List.range_succ_eq_map,
        List.head?_map]
    · rw [List.getLast?_eq_getElem?]
      have hlen : (((create_default_chapters total_pages).map
          Chapter.end_page)).length = (total_pages + 19) / 20 := by
        simp [create_default_chapters]
      rw [hlen]
      simp only [create_default_chapters, List.map_map, List.getElem?_map]
      rw [List.getElem?_range (by omega)]
      simp only [Option.map_some', Function.comp_apply]
      rw [min_eq_right (by omega)]
    · intro i c c2 hc hc2
      simp only [create_default_chapters, List.getElem?_map] at hc hc2
      by_cases h1 : i + 1 < (total_pages + 19) / 20
      · have h0 : i < (total_pages + 19) / 20 := by omega
        rw [List.getElem?_range h1] at hc2
        rw [List.getElem?_range h0] at hc
        simp only [Option.map_some'] at hc hc2
        obtain rfl : _ = c := Option.some_injective _ hc
        obtain rfl : _ = c2 := Option.some_injective _ hc2
        simp only [Option.getD_some]
        rw [min_eq_left (by omega)]
        push_cast
        ring
      · have hnone : (List.range ((total_pages + 19) / 20))[i + 1]? = none := by
          rw [List.getElem?_eq_none]
          simpa using Nat.le_of_not_lt h1
        rw [hnone] at hc2
        simp at hc2

/-- Witness for C3's amended theorem at 45 pages (the spec scenario:
chunks [0,19], [20,39], [40,44]). -/
theorem default_chapterizer_amended_witness :
    0 < 45 ∧
    ((create_default_chapters 45).map Chapter.end_page).getLast?
      = some (some 44) :=
  ⟨by decide,
    ((((default_chapterizer_amended 45).2.2) (by decide)).2.2.1).trans
      (by decide)⟩

/-- A list all of whose elements equal `n` is sorted under `≤`. -/
theorem sorted_of_all_eq {l : List Nat} {n : Nat} (h : ∀ x ∈ l, x = n) :
    l.Sorted (· ≤ ·) := by
  induction l with
  | nil => simp
  | cons a l ih =>
    rw [List.sorted_cons]
    refine ⟨fun b hb => ?_, ih (fun x hx => h x (by simp [hx]))⟩
    rw [h a (by simp), h b (by simp [hb])]

/-- Sortedness of an append splits into both parts plus the cross
condition. -/
theorem sorted_append_iff {α : Type} {r : α → α → Prop} {l₁ l₂ : List α} :
    (l₁ ++ l₂).Sorted r ↔
      l₁.Sorted r ∧ l₂.Sorted r ∧ ∀ a ∈ l₁, ∀ b ∈ l₂, r a b :=
  List.pairwise_append

/-- Page-indexed flatMap over an enumeration yields keys that are sorted
and bounded below by the starting index, provided every element produced
for page `(i, p)` carries key `i`. -/
theorem flatMap_enumFrom_keys {β : Type} (f : Nat × Page → List (Nat × β))
    (hf : ∀ i p x, x ∈ f (i, p) → x.1 = i) (doc : List Page) :
    ∀ n : Nat,
      ((((List.enumFrom n doc).flatMap f).map Prod.fst).Sorted (· ≤ ·)) ∧
      (∀ k ∈ ((List.enumFrom n doc).flatMap f).map Prod.fst, n ≤ k) := by
  induction doc with
  | nil => intro n; simp
  | cons page doc ih =>
    intro n
    rw [List.enumFrom_cons]
    simp only [List.flatMap_cons, List.map_append]
    have hhead : ∀ k ∈ (f (n, page)).map Prod.fst, k = n := by
      intro k hk
      simp only [List.mem_map] at hk
      obtain ⟨x, hx, rfl⟩ := hk
      exact hf n page x hx
    obtain ⟨ih1, ih2⟩ := ih (n + 1)
    constructor
    · rw [sorted_append_iff]
      refine ⟨sorted_of_all_eq hhead, ih1, fun a ha b hb => ?_⟩
      rw [hhead a ha]
      exact Nat.le_of_succ_le (ih2 b hb)
    · intro k hk
      rcases List.mem_append.mp hk with h | h
      · exact (hhead k h).ge
      · exact Nat.le_of_succ_le (ih2 k h)

/-- The page indices attached by `qualifying_spans` are nondecreasing:
the scan visits pages in order. -/
theorem qualifying_spans_keys_sorted (doc : List Page) (threshold : ℚ) :
    ((qualifying_spans doc threshold).map Prod.fst).Sorted (· ≤ ·) := by
  rw [qualifying_spans, List.enum_eq_enumFrom]
  refine (flatMap_enumFrom_keys _ ?_ doc 0).1
  intro i p x hx
  simp only [List.mem_filterMap] at hx
  obtain ⟨s, _, hs⟩ := hx
  by_cases hc : threshold ≤ s.size ∧ is_chapter_heading s.text.trim
  · rw [if_pos hc] at hs
    cases hs
    rfl
  · rw [if_neg hc] at hs
    cases hs

/-- The start pages of the scan's chapters are exactly the page indices of
the qualifying spans, in order. -/
theorem scan_map_start_page (doc : List Page) :
    (detect_from_headings_scan doc).map Chapter.start_page
      = (qualifying_spans doc
          (calculate_heading_threshold (analyze_font_sizes doc))).map Prod.fst := by
  rw [detect_from_headings_scan, List.map_map]
  conv_rhs => rw [← List.enumFrom_map_snd 0 (qualifying_spans doc
      (calculate_heading_threshold (analyze_font_sizes doc))), List.map_map]
  rfl

/-- Mapping the successor over `range'` shifts its start. -/
theorem map_succ_range' (s n : Nat) :
    (List.range' s n).map (· + 1) = List.range' (s + 1) n := by
  induction n generalizing s with
  | zero => rfl
  | succ n ih =>
    rw [List.range'_succ, List.range'_succ, List.map_cons, ih]

/-- The chapter numbers assigned by the scan loop are `1, 2, …, K` in list
order. -/
theorem scan_map_chapter_num (doc : List Page) :
    (detect_from_headings_scan doc).map Chapter.chapter_num
      = List.range' 1 (detect_from_headings_scan doc).length := by
  rw [detect_from_headings_scan, List.map_map, List.length_map]
  have key : ∀ {β : Type} (l : List β) (n : Nat),
      (List.enumFrom n l).map (fun x => x.1 + 1)
        = List.range' (n + 1) (List.enumFrom n l).length := by
    intro β l
    induction l with
    | nil => intro n; rfl
    | cons a l ih =>
      intro n
      rw [List.enumFrom_cons, List.map_cons, List.length_cons, List.range'_succ,
        ih (n + 1)]
  exact key (qualifying_spans doc
    (calculate_heading_threshold (analyze_font_sizes doc))) 0

/-- Unfolding equation: empty sibling list. -/
theorem extract_nil (n : Nat) (p : String) (l : Nat) :
    extract_nested_bookmarks [] n p l = [] := by
  rw [extract_nested_bookmarks.eq_def]

/-- Unfolding equation: container node (has children). -/
theorem extract_container {title : String} {dest : Option Nat}
    {children rest : List BNode} {n : Nat} {p : String} {l : Nat}
    (hch : 0 < children.length) :
    extract_nested_bookmarks (BNode.mk title dest children :: rest) n p l
      = extract_nested_bookmarks children n (join_title p title) (l + 1)
        ++ extract_nested_bookmarks rest
            (n + (extract_nested_bookmarks children n (join_title p title)
              (l + 1)).length) p l := by
  rw [extract_nested_bookmarks.eq_def]
  simp only [if_pos hch]

/-- Unfolding equation: childless node with a resolvable destination. -/
theorem extract_leaf_some {title : String} {children rest : List BNode}
    {page : Nat} {n : Nat} {p : String} {l : Nat}
    (hch : ¬ 0 < children.length) :
    extract_nested_bookmarks (BNode.mk title (some page) children :: rest) n p l
      = { title := title, full_title := join_title p title, parent := p,
          start_page := page, chapter_num := n, level := l }
          :: extract_nested_bookmarks rest (n + 1) p l := by
  rw [extract_nested_bookmarks.eq_def]
  simp only [if_neg hch]

/-- Unfolding equation: childless node whose destination failed to
resolve. -/
theorem extract_leaf_none {title : String} {children rest : List BNode}
    {n : Nat} {p : String} {l : Nat} (hch : ¬ 0 < children.length) :
    extract_nested_bookmarks (BNode.mk title none children :: rest) n p l
      = extract_nested_bookmarks rest n p l := by
  rw [extract_nested_bookmarks.eq_def]
  simp only [if_neg hch]

/-- Unfolding equation: empty outline has no leaf pages. -/
theorem plp_nil : preorder_leaf_pages [] = [] := by
  rw [preorder_leaf_pages.eq_def]

/-- Unfolding equation: container node contributes its subtree's pages. -/
theorem plp_container {title : String} {dest : Option Nat}
    {children rest : List BNode} (hch : 0 < children.length) :
    preorder_leaf_pages (BNode.mk title dest children :: rest)
      = preorder_leaf_pages children ++ preorder_leaf_pages rest := by
  rw [preorder_leaf_pages.eq_def]
  simp only [if_pos hch]

/-- Unfolding equation: resolvable childless node contributes its page. -/
theorem plp_leaf_some {title : String} {children rest : List BNode}
    {page : Nat} (hch : ¬ 0 < children.length) :
    preorder_leaf_pages (BNode.mk title (some page) children :: rest)
      = page :: preorder_leaf_pages rest := by
  rw [preorder_leaf_pages.eq_def]
  simp only [if_neg hch]

/-- Unfolding equation: unresolvable childless node contributes nothing. -/
theorem plp_leaf_none {title : String} {children rest : List BNode}
    (hch : ¬ 0 < children.length) :
    preorder_leaf_pages (BNode.mk title none children :: rest)
      = preorder_leaf_pages rest := by
  rw [preorder_leaf_pages.eq_def]
  simp only [if_neg hch]

/-- Chapter numbers of the flattened bookmark list form the contiguous run
starting at the initial counter value. -/
theorem extract_map_chapter_num (items : List BNode) (num : Nat)
    (parent : String) (level : Nat) :
    (extract_nested_bookmarks items num parent level).map Chapter.chapter_num
      = List.range' num (extract_nested_bookmarks items num parent level).length := by
  induction items, num, parent, level using extract_nested_bookmarks.induct with
  | case1 n p l => rw [extract_nil]; rfl
  | case2 title dest children rest n p l hch nested ih1 ih2 =>
    rw [show nested = extract_nested_bookmarks children n (join_title p title)
        (l + 1) from rfl] at ih2
    rw [extract_container hch, List.map_append, List.length_append, ih1, ih2,
      List.range'_append_1]
    exact congrArg (List.range' n) (Nat.add_comm _ _)
  | case3 title children rest n p l hch page ih =>
    rw [extract_leaf_some hch, List.map_cons, List.length_cons, ih,
      List.range'_succ]
  | case4 title children rest n p l hch ih =>
    rw [extract_leaf_none hch]
    exact ih

/-- An unresolvable childless node is invisible: deleting it anywhere in a
sibling list leaves the flattening unchanged. -/
theorem extract_skip_unresolved (pre post : List BNode) (t : String)
    (num : Nat) (parent : String) (level : Nat) :
    extract_nested_bookmarks (pre ++ BNode.mk t none [] :: post) num parent level
      = extract_nested_bookmarks (pre ++ post) num parent level := by
  induction pre generalizing num with
  | nil =>
    rw [List.nil_append, List.nil_append, extract_leaf_none (by simp)]
  | cons x pre ih =>
    cases x with
    | mk xt xd xch =>
      by_cases hch : 0 < xch.length
      · rw [List.cons_append, List.cons_append, extract_container hch,
          extract_container hch, ih]
      · cases xd with
        | some p =>
          rw [List.cons_append, List.cons_append, extract_leaf_some hch,
            extract_leaf_some hch, ih]
        | none =>
          rw [List.cons_append, List.cons_append, extract_leaf_none hch,
            extract_leaf_none hch]
          exact ih num

/-- The start pages of the flattened bookmark list are the resolvable leaf
destinations in pre-order: the traversal never re-sorts. -/
theorem extract_map_start_page (items : List BNode) (num : Nat)
    (parent : String) (level : Nat) :
    (extract_nested_bookmarks items num parent level).map Chapter.start_page
      = preorder_leaf_pages items := by
  induction items, num, parent, level using extract_nested_bookmarks.induct with
  | case1 n p l => rw [extract_nil, plp_nil]; rfl
  | case2 title dest children rest n p l hch nested ih1 ih2 =>
    rw [show nested = extract_nested_bookmarks children n (join_title p title)
        (l + 1) from rfl] at ih2
    rw [extract_container hch, plp_container hch, List.map_append, ih1, ih2]
  | case3 title children rest n p l hch page ih =>
    rw [extract_leaf_some hch, plp_leaf_some hch, List.map_cons, ih]
  | case4 title children rest n p l hch ih =>
    rw [extract_leaf_none hch, plp_leaf_none hch]
    exact ih

/-- C5: in every detection pass — bookmark flattening, heading scanning,
and the default chunking — the chapter numbers form the contiguous run
1..K in list order, and a bookmark node whose destination fails to
resolve produces no candidate and consumes no chapter number (deleting it
changes nothing). -/
theorem detection_chapter_numbering :
    (∀ (outline : List BNode) (total_pages : Nat),
      (detect_from_bookmarks outline total_pages).map Chapter.chapter_num
        = List.range' 1 (detect_from_bookmarks outline total_pages).length) ∧
    (∀ doc : List Page,
      (detect_from_headings doc).map Chapter.chapter_num
        = List.range' 1 (detect_from_headings doc).length) ∧
    (∀ total_pages : Nat,
      (create_default_chapters total_pages).map Chapter.chapter_num
        = List.range' 1 (create_default_chapters total_pages).length) ∧
    (∀ (pre post : List BNode) (t : String) (num : Nat) (parent : String)
        (level : Nat),
      extract_nested_bookmarks (pre ++ BNode.mk t none [] :: post) num parent level
        = extract_nested_bookmarks (pre ++ post) num parent level) := by
  refine ⟨fun outline total_pages => ?_, fun doc => ?_, fun total_pages => ?_,
    extract_skip_unresolved⟩
  · rw [detect_from_bookmarks,
      calculate_end_pages_map Chapter.chapter_num (fun c e => rfl),
      calculate_end_pages_length]
    exact extract_map_chapter_num outline 1 "" 0
  · rw [detect_from_headings,
      calculate_end_pages_map Chapter.chapter_num (fun c e => rfl),
      calculate_end_pages_length]
    exact scan_map_chapter_num doc
  · rw [create_default_chapters, List.map_map, List.length_map,
      List.range_eq_range', List.length_range']
    exact map_succ_range' 0 ((total_pages + 19) / 20)

/-- C4 counterexample: an outline whose two leaves resolve to pages 5 and
0 (in that sibling order) is handed to the bookmark path unchanged, and
the produced candidate list is not in ascending start-page order. -/
theorem bookmark_order_counterexample :
    ¬ (((detect_from_bookmarks out_of_order_outline 10).map
        Chapter.start_page).Sorted (· ≤ ·)) := by
  have h : (detect_from_bookmarks out_of_order_outline 10).map Chapter.start_page
      = [5, 0] := by
    rw [detect_from_bookmarks,
      calculate_end_pages_map Chapter.start_page (fun c e => rfl),
      extract_map_start_page, out_of_order_outline, plp_leaf_some (by simp),
      plp_leaf_some (by simp), plp_nil]
  rw [h]
  decide

/-- C4 amended: candidates are emitted in traversal order and never
re-sorted; the heading path's list is always nondecreasing in start page,
and the bookmark path's list equals the pre-order sequence of resolvable
leaf destinations — so it is nondecreasing exactly when that sequence
is. -/
theorem detection_order_amended :
    (∀ doc : List Page,
      ((detect_from_headings doc).map Chapter.start_page).Sorted (· ≤ ·)) ∧
    (∀ (outline : List BNode) (total_pages : Nat),
      (detect_from_bookmarks outline total_pages).map Chapter.start_page
        = preorder_leaf_pages outline) ∧
    (∀ (outline : List BNode) (total_pages : Nat),
      (preorder_leaf_pages outline).Sorted (· ≤ ·) →
      ((detect_from_bookmarks outline total_pages).map
          Chapter.start_page).Sorted (· ≤ ·)) := by
  have hbook : ∀ (outline : List BNode) (total_pages : Nat),
      (detect_from_bookmarks outline total_pages).map Chapter.start_page
        = preorder_leaf_pages outline := by
    intro outline total_pages
    rw [detect_from_bookmarks,
      calculate_end_pages_map Chapter.start_page (fun c e => rfl),
      extract_map_start_page]
  refine ⟨fun doc => ?_, hbook, fun outline total_pages hs => ?_⟩
  · rw [detect_from_headings,
      calculate_end_pages_map Chapter.start_page (fun c e => rfl),
      scan_map_start_page]
    exact qualifying_spans_keys_sorted doc _
  · rw [hbook outline total_pages]
    exact hs

/-- Witness for C4's amended theorem at a concrete in-order outline. -/
theorem detection_order_amended_witness :
    (preorder_leaf_pages in_order_outline).Sorted (· ≤ ·) ∧
    ((detect_from_bookmarks in_order_outline 10).map
        Chapter.start_page).Sorted (· ≤ ·) := by
  have hs : (preorder_leaf_pages in_order_outline).Sorted (· ≤ ·) := by
    rw [show preorder_leaf_pages in_order_outline = [0, 5] by
      rw [in_order_outline, plp_leaf_some (by simp), plp_leaf_some (by simp),
        plp_nil]]
    decide
  exact ⟨hs, detection_order_amended.2.2 in_order_outline 10 hs⟩

/-- C6: the heading font-size threshold is the element at index
⌊0.1 × N⌋ of the N sampled sizes in descending order (stated against an
arbitrary descending-sorted permutation of the sample, which is unique);
the sample covers at most the first 20 pages; with no spans sampled the
threshold is 14.0. -/
theorem heading_threshold_spec (doc : List Page) (s : List ℚ)
    (hperm : s.Perm (analyze_font_sizes doc)) (hsorted : s.Sorted (· ≥ ·)) :
    analyze_font_sizes doc = analyze_font_sizes (doc.take 20) ∧
    (s = [] → calculate_heading_threshold (analyze_font_sizes doc) = 14) ∧
    (s ≠ [] → ∃ hlt : s.length / 10 < s.length,
      calculate_heading_threshold (analyze_font_sizes doc)
        = s.get ⟨s.length / 10, hlt⟩) := by
  have hs : s = List.insertionSort (· ≥ ·) (analyze_font_sizes doc) :=
    List.eq_of_perm_of_sorted
      (hperm.trans (List.perm_insertionSort (· ≥ ·) _).symm) hsorted
      (List.sorted_insertionSort (· ≥ ·) _)
  refine ⟨?_, ?_, ?_⟩
  · rw [analyze_font_sizes, analyze_font_sizes, List.take_take, Nat.min_self]
  · intro h
    subst h
    have hn : analyze_font_sizes doc = [] := hperm.symm.eq_nil
    simp only [calculate_heading_threshold, if_pos hn]
  · intro hne
    have hslen : 0 < s.length := List.length_pos.mpr hne
    have hsampleNe : analyze_font_sizes doc ≠ [] := by
      intro h
      exact hne (hperm.trans (h ▸ List.Perm.refl _)).eq_nil
    subst hs
    have hp : (List.insertionSort (· ≥ ·) (analyze_font_sizes doc)).length / 10
        < (List.insertionSort (· ≥ ·) (analyze_font_sizes doc)).length :=
      Nat.div_lt_self hslen (by norm_num)
    refine ⟨hp, ?_⟩
    simp only [calculate_heading_threshold, if_neg hsampleNe]
    rw [dif_pos hp]

/-- Witness for C6 at a one-page document with span sizes 12, 20, 16:
N = 3, index ⌊0.3⌋ = 0, so the threshold is the largest size, 20. -/
theorem heading_threshold_spec_witness :
    calculate_heading_threshold (analyze_font_sizes sample_doc) = 20 := by
  obtain ⟨hlt, heq⟩ := (heading_threshold_spec sample_doc [20, 16, 12]
    (by decide) (by decide)).2.2 (by decide)
  simpa using heq

/-- C7 (evidence for the code bug): the text "1. Introduction" — the very
example named in the code's own comment for the pattern `^\d+\.\s+[A-Z]` —
does not pass `_is_chapter_heading`: the pattern is matched against the
lower-cased text, where `[A-Z]` can never match, and the catch-all
rejects it because its first character is a digit. -/
theorem numbered_heading_rejected :
    is_chapter_heading "1. Introduction" = false := by decide

/-- C8 counterexample: one hundred copies of "A" form a text entirely of
upper-case letters of length ≥ 6, yet `_is_chapter_heading` rejects it —
the ALL-CAPS regex never fires on the lower-cased text and the catch-all
requires length < 100. -/
theorem allcaps_counterexample :
    6 ≤ hundred_as.length ∧
    (∀ c ∈ hundred_as.toList, c.isUpper = true ∨ c = ' ') ∧
    is_chapter_heading hundred_as = false := by decide

/-- C8 amended: a text of upper-case letters and spaces with length ≥ 6
passes `_is_chapter_heading` provided additionally its length is < 100 and
its first character is upper-case (in particular not a space): the
catch-all heuristic accepts it. -/
theorem allcaps_amended (text : String)
    (hchars : ∀ c ∈ text.toList, c.isUpper = true ∨ c = ' ')
    (hlen6 : 6 ≤ text.length) (hlen100 : text.length < 100)
    (hfirst : first_char_upper text = true) :
    is_chapter_heading text = true := by
  have h1 : decide (text.length < 100) = true := decide_eq_true hlen100
  have h2 : decide (3 < text.length) = true := decide_eq_true (by omega)
  simp only [is_chapter_heading, h1, h2, hfirst, Bool.and_self, Bool.and_true,
    Bool.true_and, Bool.or_true]

/-- Witness for C8's amended theorem at the text "AAAAAA". -/
theorem allcaps_amended_witness :
    (∀ c ∈ ("AAAAAA" : String).toList, c.isUpper = true ∨ c = ' ') ∧
    is_chapter_heading "AAAAAA" = true :=
  ⟨by decide,
    allcaps_amended "AAAAAA" (by decide) (by decide) (by decide) (by decide)⟩

/-- C2 counterexample: when the heading detector raises on a 7-page
document (bookmarks empty), the final result is the DefaultChapterizer
chapters — but the detection-method tag is "headings", not "default". -/
theorem heading_failure_tag_counterexample :
    (detect_chapters [] (Except.error ()) 7).1 = create_default_chapters 7 ∧
    (detect_chapters [] (Except.error ()) 7).2 = "headings" ∧
    (detect_chapters [] (Except.error ()) 7).2 ≠ "default" :=
  ⟨rfl, rfl, by decide⟩

/-- C2 amended: when HeadingDetector raises, `detect_chapters` returns the
DefaultChapterizer fixed-chunk chapters for the page count, but
`detection_method` is "headings" — it is set unconditionally after the
heading attempt, and no "default" tag exists in the code.  At 7 pages the
result is the single chapter "Section 1" covering pages [0, 6]. -/
theorem heading_failure_amended :
    (∀ total_pages : Nat,
      detect_chapters [] (Except.error ()) total_pages
        = (create_default_chapters total_pages, "headings")) ∧
    detect_chapters [] (Except.error ()) 7
      = ([{ title := "Section 1", full_title := "Section 1", parent := "",
            start_page := 0, chapter_num := 1, level := 0, font_size := none,
            end_page := some 6 }], "headings") :=
  ⟨fun _ => rfl, by decide⟩

/-- C9: when bookmark detection yields no chapters and the heading scan
completes without raising but finds zero qualifying spans, the empty list
is accepted as the final answer with tag "headings"; DefaultChapterizer is
not consulted. -/
theorem empty_heading_scan_is_final (doc : List Page) (total_pages : Nat)
    (hscan : detect_from_headings doc = []) :
    detect_chapters [] (Except.ok (detect_from_headings doc)) total_pages
      = ([], "headings") := by
  rw [hscan]
  rfl

/-- Witness for C9 at the empty document, whose scan finds no spans. -/
theorem empty_heading_scan_is_final_witness :
    detect_from_headings ([] : List Page) = [] ∧
    detect_chapters [] (Except.ok (detect_from_headings ([] : List Page))) 0
      = ([], "headings") :=
  ⟨rfl, empty_heading_scan_is_final [] 0 rfl⟩

end PdfSplitter
